import Mathlib

/-!
Shallow embedding of the scan-progress / quota reconciliation core of the
Columbus desktop app (Vue + Pinia front-end).  Sources embedded here:

* the scan store (`useScanStore`): `resetProgress`, `startScan`,
  `updateProgress`, `handleError`;
* the products store (`useProductsStore`): `loadDailyUsage`,
  `loadProductPromptCount`, the `availableTests` getter;
* the regions store: `isPlatformAuthForRegion`, `hasAnyAuth`;
* the `PlatformCard` component's `progress` computed value;
* the Supabase realtime composable's `debouncedRefresh` single-slot
  debounce timer.

JavaScript numbers are modelled as `Int` (and exact rationals `ℚ` for the
intermediate division results); `Math.round` is `⌊x + 1/2⌋`, which is the
JS rounding rule (round half toward +∞).  A JS value that may be
`undefined` is an `Option`; `x || d` on numbers maps `0`/absent to `d`
(`jsOrNum`/`jsOrOpt` below), `x ?? d` is `Option.getD`.  Records
(`Record<string, T>`) are association lists.
-/

/-- JS `Math.round`: round half toward positive infinity. -/
def jsRound (q : ℚ) : Int := ⌊q + 1/2⌋

/-- JS `v || d` where `v` is a number known to be present: `0` is falsy. -/
def jsOrNum (v : Int) (d : Int) : Int := if v = 0 then d else v

/-- JS `x || d` where `x` is a possibly-`undefined` number. -/
def jsOrOpt (o : Option Int) (d : Int) : Int :=
  match o with
  | some v => jsOrNum v d
  | none => d

/-- JS `x || d` where `x` is a possibly-`undefined` string: `""` is falsy. -/
def jsOrStr (o : Option String) (d : String) : String :=
  match o with
  | some s => if s = "" then d else s
  | none => d

/-- JS `x || d` where `x` is a possibly-`undefined` boolean. -/
def jsOrBool (o : Option Bool) (d : Bool) : Bool := o.getD false || d

/-- Lower-case a string (ASCII, as the error messages involved are ASCII). -/
def lowerStr (s : String) : String := { data := s.data.map Char.toLower }

/-- Whether `needle` occurs at the start of `hay`. -/
def charsStartWith (needle hay : List Char) : Bool :=
  match needle, hay with
  | [], _ => true
  | _ :: _, [] => false
  | n :: ns, h :: hs => n == h && charsStartWith ns hs

/-- Whether `needle` occurs contiguously anywhere in `hay`. -/
def charsHaveInfix (hay needle : List Char) : Bool :=
  match hay with
  | [] => needle.isEmpty
  | _ :: tl => charsStartWith needle hay || charsHaveInfix tl needle

/-- JS `haystack.includes(needle)` on strings. -/
def strIncludes (haystack needle : String) : Bool :=
  charsHaveInfix haystack.data needle.data

/- ## Scan store data model (`stores/scan.ts` and `types/index.ts`) -/

/-- `PlatformState` from `types/index.ts`: per-platform counters. -/
structure PlatformState where
  status : String
  total : Int
  submitted : Int
  collected : Int
deriving DecidableEq, Repr

/-- `ScanComplete` from `types/index.ts` (rates kept as exact rationals). -/
structure ScanComplete where
  total_prompts : Int
  successful_prompts : Int
  mention_rate : ℚ
  citation_rate : ℚ
deriving DecidableEq, Repr

/-- The scan store's state refs.  `countdownSeconds : Option Int` models
`number | null` (`none` = `null`). -/
structure ScanState where
  isScanning : Bool
  isStarting : Bool
  phase : String
  progress : Int
  countdownSeconds : Option Int
  platforms : List (String × PlatformState)
  lastResult : Option ScanComplete
deriving DecidableEq, Repr

/-- The `scan:progress` payload.  Every field may be absent (`undefined`).
`countdownSeconds : Option (Option Int)`: outer `none` = the field is
absent/`undefined`, `some none` = explicit `null`, `some (some n)` = `n`. -/
structure ProgressPayload where
  phase : Option String
  platforms : Option (List (String × PlatformState))
  countdownSeconds : Option (Option Int)
deriving DecidableEq, Repr

/-- `totalSubmitted` accumulated by the loop in `updateProgress`
(`state.submitted || 0` is the identity on integers). -/
def aggSubmitted (pls : List (String × PlatformState)) : Int :=
  (pls.map (fun kv => kv.2.submitted)).sum

/-- `totalCollected` accumulated by the loop in `updateProgress`. -/
def aggCollected (pls : List (String × PlatformState)) : Int :=
  (pls.map (fun kv => kv.2.collected)).sum

/-- `totalTasks` accumulated by the loop in `updateProgress`. -/
def aggTotal (pls : List (String × PlatformState)) : Int :=
  (pls.map (fun kv => kv.2.total)).sum

/-- `updateProgress(progressData)` from the scan store.  Field by field:
`if (progressData.phase)` (truthy: skip on absent or empty string);
`if (progressData.platforms)` replaces `platforms.value` wholesale and,
when `totalTasks > 0`, writes
`Math.round(submitted/total*50 + collected/total*50)` into
`progress.value`; finally
`if (progressData.countdownSeconds !== undefined)` assigns the value
(including `null`) into `countdownSeconds.value`. -/
def updateProgress (s : ScanState) (p : ProgressPayload) : ScanState :=
  let s1 :=
    match p.phase with
    | some ph => if ph = "" then s else { s with phase := ph }
    | none => s
  let s2 :=
    match p.platforms with
    | some pls =>
      let totalSubmitted := aggSubmitted pls
      let totalCollected := aggCollected pls
      let totalTasks := aggTotal pls
      let s1' := { s1 with platforms := pls }
      if 0 < totalTasks then
        { s1' with progress :=
            jsRound ((totalSubmitted : ℚ) / (totalTasks : ℚ) * 50 +
                     (totalCollected : ℚ) / (totalTasks : ℚ) * 50) }
      else s1'
    | none => s1
  match p.countdownSeconds with
  | some c => { s2 with countdownSeconds := c }
  | none => s2

/-- The `progress` computed value of `PlatformCard.vue`:
`0` when the optional `state` prop is absent or `total === 0`, else
`Math.round(((submitted + collected) / (total * 2)) * 100)`. -/
def platformCardProgress (st : Option PlatformState) : Int :=
  match st with
  | none => 0
  | some st =>
    if st.total = 0 then 0
    else jsRound (((st.submitted : ℚ) + (st.collected : ℚ)) /
                  ((st.total : ℚ) * 2) * 100)

/- ## `handleError` (`stores/scan.ts`) -/

/-- A `uiStore.showMessage(text, title, kind)` call. -/
structure UiMessage where
  text : String
  title : String
  kind : String
deriving DecidableEq, Repr

/-- The `scan:error` payload: a plain string, or an object with an optional
`message` field. -/
inductive ErrPayload where
  | str (s : String)
  | obj (message : Option String)
deriving DecidableEq, Repr

/-- `typeof error === 'string' ? error : error.message || String(error)`.
`String(error)` on a plain object yields the literal `[object Object]`. -/
def errMsgOf (e : ErrPayload) : String :=
  match e with
  | .str s => s
  | .obj m => jsOrStr m "[object Object]"

/-- Result of `handleError`: the new scan state, the message shown via
`uiStore.showMessage`, and the view passed to `uiStore.showView`. -/
structure ErrorOutcome where
  scan : ScanState
  message : UiMessage
  view : String
deriving DecidableEq, Repr

/-- `handleError(error)` from the scan store: clear `isScanning`, classify by
`errorMsg.toLowerCase().includes('cancel')`, show the message with title/kind
chosen by the classification, and return to the `main` view. -/
def handleError (s : ScanState) (e : ErrPayload) : ErrorOutcome :=
  let errorMsg := errMsgOf e
  let isCancelled := strIncludes (lowerStr errorMsg) "cancel"
  { scan := { s with isScanning := false }
    message :=
      { text := errorMsg
        title := if isCancelled then "Scan Cancelled" else "Scan Error"
        kind := if isCancelled then "info" else "error" }
    view := "main" }

/- ## Products store (`stores/products.ts`) -/

/-- The `dailyUsage` ref of the products store.  The store always writes an
integer into `effectiveRemaining`, but the `availableTests` getter reads it
through `??`, so it is kept optional here. -/
structure DailyUsage where
  current : Int
  limit : Int
  remaining : Int
  effectiveRemaining : Option Int
  pendingEvaluations : Int
  isUnlimited : Bool
  plan : String
deriving DecidableEq, Repr

/-- Initial `dailyUsage` value of the store. -/
def initialDailyUsage : DailyUsage :=
  { current := 0, limit := 30, remaining := 30, effectiveRemaining := some 30
    pendingEvaluations := 0, isUnlimited := false, plan := "free" }

/-- `availableTests` getter:
`dailyUsage.effectiveRemaining ?? dailyUsage.remaining`. -/
def availableTests (du : DailyUsage) : Int :=
  du.effectiveRemaining.getD du.remaining

/-- Response of the `check_daily_usage` command; every field may be absent. -/
structure UsageResp where
  current : Option Int
  limit : Option Int
  remaining : Option Int
  effectiveRemaining : Option Int
  pendingEvaluations : Option Int
  isUnlimited : Option Bool
  plan : Option String
deriving DecidableEq, Repr

/-- `loadDailyUsage()` from the products store: on success the `dailyUsage`
ref is replaced wholesale by the object literal built from the response
(`usage.current || 0`, `usage.limit || 5`, `usage.remaining || 0`,
`usage.effectiveRemaining ?? usage.remaining ?? 30`,
`usage.pendingEvaluations ?? 0`, `usage.isUnlimited || usage.limit === -1`,
`usage.plan || 'free'`); a failed command leaves the prior value in place
(the catch only logs). -/
def loadDailyUsage (resp : Except String UsageResp) (prior : DailyUsage) :
    DailyUsage :=
  match resp with
  | .error _ => prior
  | .ok usage =>
    { current := jsOrOpt usage.current 0
      limit := jsOrOpt usage.limit 5
      remaining := jsOrOpt usage.remaining 0
      effectiveRemaining := some ((usage.effectiveRemaining <|> usage.remaining).getD 30)
      pendingEvaluations := usage.pendingEvaluations.getD 0
      isUnlimited := jsOrBool usage.isUnlimited (usage.limit == some (-1))
      plan := jsOrStr usage.plan "free" }

/-- The optional `quota` object embedded in a `fetch_extension_prompts`
response (`PromptData.quota` in `types/index.ts`): `promptsUsedToday` and
`promptsPerDay` are required, the rest optional. -/
structure QuotaResp where
  promptsUsedToday : Int
  promptsPerDay : Int
  promptsRemaining : Option Int
  effectiveRemaining : Option Int
  pendingEvaluations : Option Int
  isUnlimited : Option Bool
  plan : Option String
deriving DecidableEq, Repr

/-- Response of `fetch_extension_prompts`; the prompt list is kept only for
its length, which is all `loadProductPromptCount` reads from it. -/
structure PromptData where
  totalPrompts : Option Int
  prompts : Option (List String)
  quota : Option QuotaResp
deriving DecidableEq, Repr

/-- The slice of products-store state written by `loadProductPromptCount`. -/
structure PromptCountState where
  promptCount : Int
  dailyUsage : DailyUsage
deriving DecidableEq, Repr

/-- `loadProductPromptCount(productId)` from the products store:
`promptCount.value = promptData?.totalPrompts || promptData?.prompts?.length || 0`;
when a `quota` object is present, `dailyUsage` is replaced using
`promptsRemaining ?? (promptsPerDay - promptsUsedToday)` as the base
remaining, with defaults `promptsUsedToday || 0`, `promptsPerDay || 30`,
`effectiveRemaining ?? baseRemaining`, `pendingEvaluations ?? 0`,
`isUnlimited || promptsPerDay === -1`, `plan || 'free'`.  The catch sets
`promptCount` to `0` and leaves `dailyUsage` alone. -/
def loadProductPromptCount (resp : Except String PromptData)
    (st : PromptCountState) : PromptCountState :=
  match resp with
  | .error _ => { st with promptCount := 0 }
  | .ok promptData =>
    let newCount := jsOrOpt promptData.totalPrompts
      (jsOrOpt (promptData.prompts.map (fun l => (l.length : Int))) 0)
    let st1 := { st with promptCount := newCount }
    match promptData.quota with
    | none => st1
    | some quota =>
      let baseRemaining :=
        quota.promptsRemaining.getD (quota.promptsPerDay - quota.promptsUsedToday)
      { st1 with dailyUsage :=
        { current := jsOrNum quota.promptsUsedToday 0
          limit := jsOrNum quota.promptsPerDay 30
          remaining := baseRemaining
          effectiveRemaining := some (quota.effectiveRemaining.getD baseRemaining)
          pendingEvaluations := quota.pendingEvaluations.getD 0
          isUnlimited := jsOrBool quota.isUnlimited (quota.promptsPerDay == -1)
          plan := jsOrStr quota.plan "free" } }

/- ## Regions store (`stores/regions.ts`), the slice `startScan` reads -/

structure RegionsState where
  configuredRegions : List String
  platformAuthStatus : List (String × Bool)
deriving DecidableEq, Repr

/-- `isPlatformAuthForRegion(region, platform)`:
`platformAuthStatus.value[`region:platform`] === true`. -/
def isPlatformAuthForRegion (rs : RegionsState) (region platform : String) :
    Bool :=
  (rs.platformAuthStatus.lookup (region ++ ":" ++ platform)).getD false

/-- `hasAnyAuth()`: `Object.values(platformAuthStatus.value).some(v => v === true)`. -/
def hasAnyAuth (rs : RegionsState) : Bool :=
  rs.platformAuthStatus.any (fun kv => kv.2)

/- ## `startScan` (`stores/scan.ts`) -/

/-- The single `ProductConfig` field `startScan` reads
(`config?.samples_per_prompt || 1`). -/
structure ProductConfig where
  samples_per_prompt : Int
deriving DecidableEq, Repr

/-- The slice of the products store `startScan` reads and writes. -/
structure ProductsState where
  selectedProductId : Option String
  productConfig : Option ProductConfig
  promptCount : Int
  dailyUsage : DailyUsage
deriving DecidableEq, Repr

/-- The app-wide state `startScan` touches: the scan store, the products
store, the regions store, `platformsStore.platformIds`, the current view and
the `uiStore` message/modal calls. -/
structure AppState where
  scan : ScanState
  products : ProductsState
  regions : RegionsState
  platformIds : List String
  view : String
  messages : List UiMessage
  authModal : Option (List (String × List String))
deriving DecidableEq, Repr

/-- Backend commands invoked through `useTauriCommands`. -/
inductive BackendCmd where
  | checkDailyUsage
  | fetchExtensionPrompts (productId : String)
  | getPromptTargetRegions (productId : String)
  | startScanCmd (productId : String) (samplesPerPrompt : Int)
      (platforms : List String) (maxTests : Option Int)
deriving DecidableEq, Repr

/-- The backend responses a single `startScan` run can consume, in call
order: `check_daily_usage`, `fetch_extension_prompts`,
`getPromptTargetRegions` (a record mapping prompt ids to region lists), and
the final `start_scan` invocation. -/
structure ScanEnv where
  usageResp : Except String UsageResp
  promptsResp : Except String PromptData
  promptRegionsResp : Except String (List (String × List String))
  startScanResp : Except String Unit

/-- `resetProgress()` from the scan store: zero the progress, reset the
phase/countdown/last result and initialise one `pending` zero counter per
known platform id. -/
def resetProgress (platformIds : List String) (s : ScanState) : ScanState :=
  { s with
    progress := 0
    phase := "initializing"
    countdownSeconds := none
    lastResult := none
    platforms := platformIds.map (fun id =>
      (id, { status := "pending", total := 0, submitted := 0, collected := 0 })) }

/-- Append `x` to `l` unless already present — `Set.add` with JS `Set`
insertion order. -/
def addUnique (l : List String) (x : String) : List String :=
  if l.contains x then l else l ++ [x]

/-- The `neededRegions` set built by `startScan` from the
`getPromptTargetRegions` record: an empty region list contributes `local`,
otherwise each region lower-cased. -/
def neededRegionsOf (promptRegions : List (String × List String)) :
    List String :=
  promptRegions.foldl (fun acc kv =>
    if kv.2.isEmpty then addUnique acc "local"
    else kv.2.foldl (fun a r => addUnique a (lowerStr r)) acc) []

/-- The quota gate of `startScan`:
`!productsStore.dailyUsage.isUnlimited && availableTests <= 0`. -/
def quotaBlocked (du : DailyUsage) (av : Int) : Bool :=
  !du.isUnlimited && decide (av ≤ 0)

/-- `startScan()` from the scan store, as a pure function of the app state
and the backend responses; returns the new state and the list of backend
commands invoked.  The translation is line by line: the double-click guard,
the falsy `selectedProductId` guard, the `hasAnyAuth` guard, the two quota
refresh calls, the quota gate, the prompt-count gate, the needed-region /
missing-auth computation, the platform limiting, and the final
`commands.startScan` call with its catch branch (which also catches a
`getPromptTargetRegions` failure). -/
def startScan (env : ScanEnv) (st : AppState) : AppState × List BackendCmd :=
  if st.scan.isStarting || st.scan.isScanning then (st, [])
  else
    match st.products.selectedProductId with
    | none => (st, [])
    | some productId =>
      if productId = "" then (st, [])
      else if !(hasAnyAuth st.regions) then
        ({ st with authModal := some [] }, [])
      else
        let st := { st with scan := { st.scan with isStarting := true } }
        let du1 := loadDailyUsage env.usageResp st.products.dailyUsage
        let pcs := loadProductPromptCount env.promptsResp
          { promptCount := st.products.promptCount, dailyUsage := du1 }
        let st := { st with products := { st.products with
          promptCount := pcs.promptCount, dailyUsage := pcs.dailyUsage } }
        let cmds := [BackendCmd.checkDailyUsage,
                     BackendCmd.fetchExtensionPrompts productId]
        let av := availableTests st.products.dailyUsage
        if quotaBlocked st.products.dailyUsage av then
          let msg : UiMessage :=
            if (0 : Int) < st.products.dailyUsage.pendingEvaluations then
              { text := "Please wait - " ++
                  toString st.products.dailyUsage.pendingEvaluations ++
                  " tests are pending evaluation"
                title := "Cannot Start Scan", kind := "warning" }
            else
              { text := "Daily limit reached (" ++
                  toString st.products.dailyUsage.current ++ "/" ++
                  toString st.products.dailyUsage.limit ++
                  "). Resets at midnight."
                title := "Cannot Start Scan", kind := "warning" }
          ({ st with
             messages := st.messages ++ [msg]
             scan := { st.scan with isStarting := false } }, cmds)
        else if st.products.promptCount == (0 : Int) then
          let msg : UiMessage :=
            { text := "No prompts configured for this product. Add prompts in the dashboard."
              title := "No Prompts", kind := "warning" }
          ({ st with
             messages := st.messages ++ [msg]
             scan := { st.scan with isStarting := false } }, cmds)
        else
          let cmds := cmds ++ [BackendCmd.getPromptTargetRegions productId]
          match env.promptRegionsResp with
          | .error e =>
            ({ st with
               messages := st.messages ++
                 [{ text := "Failed to start scan: " ++ e
                    title := "Error", kind := "error" }],
               view := "main",
               scan := { st.scan with isScanning := false, isStarting := false } },
             cmds)
          | .ok promptRegions =>
            let neededRegions := neededRegionsOf promptRegions
            let missingAuth := (neededRegions.filter (fun region =>
                !(st.platformIds.any (fun p =>
                  isPlatformAuthForRegion st.regions region p)))).map
              (fun r => (r, st.platformIds))
            if !missingAuth.isEmpty then
              ({ st with
                 authModal := some missingAuth
                 scan := { st.scan with isStarting := false } }, cmds)
            else
              let authPlatforms := st.platformIds.filter (fun p =>
                st.regions.configuredRegions.any (fun r =>
                  isPlatformAuthForRegion st.regions r p))
              if authPlatforms.isEmpty then
                ({ st with
                   authModal := some []
                   scan := { st.scan with isStarting := false } }, cmds)
              else
                let samples := jsOrOpt
                  (st.products.productConfig.map (fun c => c.samples_per_prompt)) 1
                let maxTestsToUse :=
                  st.products.promptCount * samples * (authPlatforms.length : Int)
                let limitedPlatforms :=
                  if !st.products.dailyUsage.isUnlimited &&
                      decide (maxTestsToUse > av) then
                    let testsPerPrompt := st.products.promptCount * samples
                    let platformsWeCanAfford := Int.fdiv av testsPerPrompt
                    if 0 < platformsWeCanAfford ∧
                        platformsWeCanAfford < (authPlatforms.length : Int) then
                      authPlatforms.take platformsWeCanAfford.toNat
                    else authPlatforms
                  else authPlatforms
                let st := { st with
                  scan := resetProgress st.platformIds
                    { st.scan with isScanning := true },
                  view := "scanning" }
                let cmds := cmds ++ [BackendCmd.startScanCmd productId samples
                  limitedPlatforms
                  (if st.products.dailyUsage.isUnlimited then none else some av)]
                match env.startScanResp with
                | .ok _ =>
                  ({ st with scan := { st.scan with isStarting := false } }, cmds)
                | .error e =>
                  ({ st with
                     messages := st.messages ++
                       [{ text := "Failed to start scan: " ++ e
                          title := "Error", kind := "error" }],
                     view := "main",
                     scan := { st.scan with
                               isScanning := false
                               isStarting := false } },
                   cmds)

/- ## Realtime quota-refresh debounce (`useSupabaseRealtime.ts`) -/

namespace Realtime

/-- The module-level mutable state of the realtime composable that matters
for debouncing: the single `refreshTimer` slot (`none` = no pending
`setTimeout`, `some f` = pending callback scheduled for absolute time `f`),
plus the trace of times at which the timer callback ran
`productsStore.loadDailyUsage()`. -/
structure RState where
  refreshTimer : Option Nat
  refreshes : List Nat
deriving DecidableEq, Repr

/-- Let time advance to `now`: if the pending timer (if any) is due, its
callback runs — it performs the quota refresh and nulls `refreshTimer`. -/
def fireDue (now : Nat) (s : RState) : RState :=
  match s.refreshTimer with
  | some f =>
    if f ≤ now then { refreshTimer := none, refreshes := s.refreshes ++ [f] }
    else s
  | none => s

/-- `debouncedRefresh()` at time `now`: `clearTimeout` on any pending timer
and `setTimeout(..., 500)` a fresh one — the single slot is overwritten. -/
def debouncedRefresh (now : Nat) (s : RState) : RState :=
  { s with refreshTimer := some (now + 500) }

/-- Deliver change-notification signals at the given (ascending) times, each
one first letting time advance to it and then running `debouncedRefresh`. -/
def runSignals (ts : List Nat) (s : RState) : RState :=
  match ts with
  | [] => s
  | t :: rest => runSignals rest (debouncedRefresh t (fireDue t s))

/-- The initial state: no pending timer, no refresh performed. -/
def initial : RState := { refreshTimer := none, refreshes := [] }

end Realtime

/- ## Concrete states and payloads used by witnesses and counterexamples -/

/-- A scan-session state mid-scan with zero progress. -/
def exScanState : ScanState :=
  { isScanning := true, isStarting := false, phase := "submitting"
    progress := 0, countdownSeconds := none, platforms := [], lastResult := none }

/-- One platform, `total=10, submitted=10, collected=0`. -/
def exPls1 : List (String × PlatformState) :=
  [("chatgpt", { status := "submitting", total := 10, submitted := 10, collected := 0 })]

/-- One platform, `total=10, submitted=10, collected=10`. -/
def exPls2 : List (String × PlatformState) :=
  [("chatgpt", { status := "complete", total := 10, submitted := 10, collected := 10 })]

/-- Progress payload carrying `exPls1`. -/
def exPayload1 : ProgressPayload :=
  { phase := some "submitting", platforms := some exPls1, countdownSeconds := none }

/-- Progress payload carrying `exPls2`. -/
def exPayload2 : ProgressPayload :=
  { phase := some "collecting", platforms := some exPls2, countdownSeconds := none }

/-- A scan-session state whose displayed progress is already 50. -/
def exHalfwayState : ScanState :=
  { isScanning := true, isStarting := false, phase := "waiting"
    progress := 50, countdownSeconds := none, platforms := exPls1, lastResult := none }

/-- Platform list in which every platform has `total = 0`. -/
def exZeroTotalPls : List (String × PlatformState) :=
  [("chatgpt", { status := "pending", total := 0, submitted := 0, collected := 0 }),
   ("claude", { status := "pending", total := 0, submitted := 0, collected := 0 })]

/-- Progress payload whose platforms all have `total = 0`. -/
def exZeroTotalPayload : ProgressPayload :=
  { phase := none, platforms := some exZeroTotalPls, countdownSeconds := none }

/-- A prior state in which platform `claude` was reported `collecting`. -/
def exClaudeState : ScanState :=
  { isScanning := true, isStarting := false, phase := "collecting"
    progress := 10, countdownSeconds := none
    platforms := [("claude", { status := "collecting", total := 5, submitted := 5, collected := 1 })]
    lastResult := none }

/-- A state with a previously stored countdown of 5 seconds. -/
def exCountdownState : ScanState :=
  { isScanning := true, isStarting := false, phase := "waiting"
    progress := 50, countdownSeconds := some 5, platforms := [], lastResult := none }

/-- A progress payload that omits the `countdownSeconds` field entirely. -/
def exOmitCountdownPayload : ProgressPayload :=
  { phase := some "waiting", platforms := none, countdownSeconds := none }

/-- A counter violating `submitted <= total` and `collected <= total`. -/
def exViolCounter : PlatformState :=
  { status := "collecting", total := 10, submitted := 20, collected := 20 }

/-- A counter satisfying the intended invariant. -/
def exOkCounter : PlatformState :=
  { status := "submitting", total := 10, submitted := 10, collected := 0 }

/-- A payload violating `submitted <= total` and `collected <= total`. -/
def exViolPls : List (String × PlatformState) :=
  [("chatgpt", exViolCounter)]

/-- Progress payload carrying the invariant-violating counters. -/
def exViolPayload : ProgressPayload :=
  { phase := none, platforms := some exViolPls, countdownSeconds := none }

/-- An unlimited quota snapshot with zero remaining tests. -/
def exUnlimitedDu : DailyUsage :=
  { current := 50, limit := -1, remaining := 0, effectiveRemaining := some 0
    pendingEvaluations := 0, isUnlimited := true, plan := "pro" }

/-- A usage response with `limit = -1` and no explicit unlimited flag. -/
def exUnlimitedResp : UsageResp :=
  { current := some 50, limit := some (-1), remaining := some 0
    effectiveRemaining := some 0, pendingEvaluations := some 0
    isUnlimited := none, plan := some "pro" }

/-- A backend environment for concrete `startScan` runs. -/
def exEnv : ScanEnv :=
  { usageResp := .ok exUnlimitedResp
    promptsResp := .ok { totalPrompts := some 3, prompts := none, quota := none }
    promptRegionsResp := .ok [("prompt-1", [])]
    startScanResp := .ok () }

/-- An app state ready to start a scan (product selected, one platform
authenticated for the `local` region, nothing in flight). -/
def exReadyState : AppState :=
  { scan := { exScanState with isScanning := false }
    products :=
      { selectedProductId := some "prod-1", productConfig := some { samples_per_prompt := 1 }
        promptCount := 3, dailyUsage := initialDailyUsage }
    regions :=
      { configuredRegions := ["local"], platformAuthStatus := [("local:chatgpt", true)] }
    platformIds := ["chatgpt"]
    view := "main", messages := [], authModal := none }

/-- An app state in which a start is already in flight. -/
def exBusyState : AppState :=
  { scan := { exScanState with isScanning := false, isStarting := true }
    products :=
      { selectedProductId := some "prod-1", productConfig := some { samples_per_prompt := 1 }
        promptCount := 3, dailyUsage := initialDailyUsage }
    regions :=
      { configuredRegions := ["local"], platformAuthStatus := [("local:chatgpt", true)] }
    platformIds := ["chatgpt"]
    view := "main", messages := [], authModal := none }

/-- A complete usage response populating the snapshot with `remaining = 7`. -/
def exFullResp : UsageResp :=
  { current := some 3, limit := some 10, remaining := some 7
    effectiveRemaining := some 6, pendingEvaluations := some 1
    isUnlimited := some false, plan := some "pro" }

/-- A later successful response that omits `remaining` (and the other
optional fields). -/
def exPartialResp : UsageResp :=
  { current := some 4, limit := some 10, remaining := none
    effectiveRemaining := none, pendingEvaluations := none
    isUnlimited := none, plan := none }

/-- A prompt-count response whose embedded quota has `promptsPerDay = 0`. -/
def exPromptDataZeroDay : PromptData :=
  { totalPrompts := some 4, prompts := none
    quota := some { promptsUsedToday := 0, promptsPerDay := 0
                    promptsRemaining := none, effectiveRemaining := none
                    pendingEvaluations := none, isUnlimited := none, plan := none } }

/- ## Shared facts about the `progress` field of `updateProgress` -/

/-- With platforms present and positive aggregate total, the overall percent
is written from the half-half formula. -/
theorem updateProgress_progress_pos (s : ScanState) (p : ProgressPayload)
    (pls : List (String × PlatformState))
    (hp : p.platforms = some pls) (ht : 0 < aggTotal pls) :
    (updateProgress s p).progress =
      jsRound ((aggSubmitted pls : ℚ) / (aggTotal pls : ℚ) * 50 +
               (aggCollected pls : ℚ) / (aggTotal pls : ℚ) * 50) := by
  unfold updateProgress
  rw [hp]
  cases p.countdownSeconds <;> cases p.phase <;> simp [ht]

/-- With platforms present but non-positive aggregate total, the overall
percent is left unchanged. -/
theorem updateProgress_progress_nonpos (s : ScanState) (p : ProgressPayload)
    (pls : List (String × PlatformState))
    (hp : p.platforms = some pls) (ht : ¬ 0 < aggTotal pls) :
    (updateProgress s p).progress = s.progress := by
  unfold updateProgress
  rw [hp]
  cases p.countdownSeconds <;> cases p.phase <;> simp [ht] <;> split <;> rfl

/-- With no platforms field, the overall percent is left unchanged. -/
theorem updateProgress_progress_none (s : ScanState) (p : ProgressPayload)
    (hp : p.platforms = none) :
    (updateProgress s p).progress = s.progress := by
  unfold updateProgress
  rw [hp]
  cases p.countdownSeconds <;> cases p.phase <;> simp <;> split <;> rfl

/- ## C1 -/

/-- C1: for every progress payload whose platforms map has aggregate total
`> 0`, `updateProgress` sets the overall progress to
`round((Σsubmitted/Σtotal)*50 + (Σcollected/Σtotal)*50)`. -/
theorem C1_overall_percent (s : ScanState) (p : ProgressPayload)
    (pls : List (String × PlatformState))
    (hp : p.platforms = some pls) (ht : 0 < aggTotal pls) :
    (updateProgress s p).progress =
      jsRound ((aggSubmitted pls : ℚ) / (aggTotal pls : ℚ) * 50 +
               (aggCollected pls : ℚ) / (aggTotal pls : ℚ) * 50) :=
  updateProgress_progress_pos s p pls hp ht

/-- C1 witness: the formula applied to one platform with
`total=10, submitted=10, collected=0` — and indeed the two half-half
instances evaluate to 50 and 100. -/
theorem C1_overall_percent_witness :
    ((updateProgress exScanState exPayload1).progress =
      jsRound ((aggSubmitted exPls1 : ℚ) / (aggTotal exPls1 : ℚ) * 50 +
               (aggCollected exPls1 : ℚ) / (aggTotal exPls1 : ℚ) * 50)) ∧
    (updateProgress exScanState exPayload1).progress = 50 ∧
    (updateProgress exScanState exPayload2).progress = 100 := by
  refine ⟨C1_overall_percent exScanState exPayload1 exPls1 rfl (by decide), ?_, ?_⟩ <;>
    norm_num [updateProgress, exScanState, exPayload1, exPayload2, exPls1,
      exPls2, aggSubmitted, aggCollected, aggTotal, jsRound]

/- ## C2 -/

/-- C2 counterexample: a payload in which every platform has `total = 0`,
processed from a state whose overall percent is 50, leaves the percent at
50 — not 0 as the claim states (the `totalTasks > 0` guard skips the write,
retaining the prior value). -/
theorem C2_counterexample :
    (∀ kv ∈ exZeroTotalPls, kv.2.total = 0) ∧
    exZeroTotalPayload.platforms = some exZeroTotalPls ∧
    (updateProgress exHalfwayState exZeroTotalPayload).progress = 50 ∧
    (updateProgress exHalfwayState exZeroTotalPayload).progress ≠ 0 := by
  refine ⟨by decide, rfl, by decide, by decide⟩

/-- C2 amended: when the aggregate total of the payload's platforms is 0,
`updateProgress` performs no division and leaves the overall percent
unchanged (so it is 0 exactly when it was 0 before, e.g. in a freshly reset
session). -/
theorem C2_zero_total (s : ScanState) (p : ProgressPayload)
    (pls : List (String × PlatformState))
    (hp : p.platforms = some pls) (ht : aggTotal pls = 0) :
    (updateProgress s p).progress = s.progress :=
  updateProgress_progress_nonpos s p pls hp (by omega)

/-- C2 witness: the amended statement at the concrete zero-total payload,
and from a state with progress 0 the result is indeed 0. -/
theorem C2_zero_total_witness :
    ((updateProgress exHalfwayState exZeroTotalPayload).progress =
      exHalfwayState.progress) ∧
    (updateProgress exScanState exZeroTotalPayload).progress = 0 := by
  refine ⟨C2_zero_total exHalfwayState exZeroTotalPayload exZeroTotalPls rfl (by decide), by decide⟩

/- ## C5 -/

/-- C5: whenever the payload's `platforms` field is present, the stored
platform map is replaced wholesale by the payload's map; any platform id
absent from the payload is absent from the stored state afterwards. -/
theorem C5_snapshot_replace (s : ScanState) (p : ProgressPayload)
    (pls : List (String × PlatformState)) (hp : p.platforms = some pls) :
    (updateProgress s p).platforms = pls ∧
    (∀ id, pls.lookup id = none → ((updateProgress s p).platforms.lookup id = none)) := by
  have hrepl : (updateProgress s p).platforms = pls := by
    unfold updateProgress
    rw [hp]
    cases p.countdownSeconds <;> cases p.phase <;> simp <;> split <;> rfl
  exact ⟨hrepl, fun id h => by rw [hrepl]; exact h⟩

/-- C5 witness: a payload missing the previously present platform `claude`
removes it from the stored state. -/
theorem C5_snapshot_replace_witness :
    (updateProgress exClaudeState exPayload1).platforms = exPls1 ∧
    exClaudeState.platforms.lookup "claude" ≠ none ∧
    ((updateProgress exClaudeState exPayload1).platforms.lookup "claude" = none) := by
  have h := C5_snapshot_replace exClaudeState exPayload1 exPls1 rfl
  exact ⟨h.1, by decide, h.2 "claude" (by decide)⟩

/- ## C6 -/

/-- C6 counterexample: a payload that omits `countdownSeconds` does NOT
clear a previously stored countdown — the `!== undefined` guard skips the
assignment and the prior value 5 is retained. -/
theorem C6_counterexample :
    exOmitCountdownPayload.countdownSeconds = none ∧
    (updateProgress exCountdownState exOmitCountdownPayload).countdownSeconds = some 5 ∧
    (updateProgress exCountdownState exOmitCountdownPayload).countdownSeconds ≠ none := by
  refine ⟨rfl, by decide, by decide⟩

/-- C6 amended: `countdownSeconds: 0` is stored and surfaced as `0` (not
hidden); an explicit `null` clears the countdown; but a payload that omits
the field leaves the previously stored countdown unchanged (only `null`
means "no countdown" — omission retains). -/
theorem C6_countdown_semantics (s : ScanState) (p : ProgressPayload) :
    (p.countdownSeconds = some (some 0) →
      (updateProgress s p).countdownSeconds = some 0) ∧
    (p.countdownSeconds = some none →
      (updateProgress s p).countdownSeconds = none) ∧
    (p.countdownSeconds = none →
      (updateProgress s p).countdownSeconds = s.countdownSeconds) := by
  have h : (updateProgress s p).countdownSeconds =
      match p.countdownSeconds with
      | some c => c
      | none => s.countdownSeconds := by
    unfold updateProgress
    cases p.countdownSeconds <;> cases p.platforms <;> cases p.phase <;>
      simp [apply_ite ScanState.countdownSeconds]
  refine ⟨fun hc => by rw [h, hc], fun hc => by rw [h, hc],
          fun hc => by rw [h, hc]⟩

/-- C6 witness: at concrete inputs — zero is stored as zero, `null` clears,
omission retains the prior countdown of 5. -/
theorem C6_countdown_semantics_witness :
    ((updateProgress exCountdownState
        { phase := none, platforms := none, countdownSeconds := some (some 0) }).countdownSeconds = some 0) ∧
    ((updateProgress exCountdownState
        { phase := none, platforms := none, countdownSeconds := some none }).countdownSeconds = none) ∧
    ((updateProgress exCountdownState exOmitCountdownPayload).countdownSeconds =
      exCountdownState.countdownSeconds) := by
  exact ⟨(C6_countdown_semantics exCountdownState _).1 rfl,
         (C6_countdown_semantics exCountdownState _).2.1 rfl,
         (C6_countdown_semantics exCountdownState exOmitCountdownPayload).2.2 rfl⟩

/- ## C7 -/

/-- C7: `handleError` classifies a `scan:error` payload as cancellation
exactly when the lowercased message contains the substring `cancel`
(presented with kind `info` / title `Scan Cancelled` instead of kind
`error` / title `Scan Error`), and in every case clears the scanning flag
and returns the view to the main screen; in particular
`Scan cancelled by user` is informational and `Network request failed` is an
error. -/
theorem C7_error_classification (s : ScanState) (e : ErrPayload) :
    ((handleError s e).message.kind = "info" ↔
      strIncludes (lowerStr (errMsgOf e)) "cancel" = true) ∧
    ((handleError s e).message.kind = "error" ↔
      ¬(strIncludes (lowerStr (errMsgOf e)) "cancel" = true)) ∧
    (handleError s e).scan.isScanning = false ∧
    (handleError s e).view = "main" ∧
    (handleError exScanState (.str "Scan cancelled by user")).message.kind = "info" ∧
    (handleError exScanState (.str "Network request failed")).message.kind = "error" := by
  refine ⟨?_, ?_, rfl, rfl, by decide, by decide⟩ <;>
    unfold handleError <;>
    cases h : strIncludes (lowerStr (errMsgOf e)) "cancel" <;> simp [h]

/-- C7 witness: the classification at the two concrete messages from the
spec, extracted by applying the theorem at those payloads. -/
theorem C7_error_classification_witness :
    ((handleError exScanState (.str "Scan cancelled by user")).message.kind = "info" ↔
      strIncludes (lowerStr (errMsgOf (.str "Scan cancelled by user"))) "cancel" = true) ∧
    (handleError exScanState (.str "Network request failed")).scan.isScanning = false ∧
    (handleError exScanState (.str "Network request failed")).view = "main" := by
  exact ⟨(C7_error_classification exScanState (.str "Scan cancelled by user")).1,
         (C7_error_classification exScanState (.str "Network request failed")).2.2.1,
         (C7_error_classification exScanState (.str "Network request failed")).2.2.2.1⟩

/- ## C9 -/

/-- C9 counterexample: on an invariant-violating payload
(`total=10, submitted=20, collected=20`) the overall percent computed by
`updateProgress` is 200 and the per-platform percent of `PlatformCard` is
200 — neither is clamped to `[0, 100]`. -/
theorem C9_counterexample :
    (updateProgress exScanState exViolPayload).progress = 200 ∧
    ¬((updateProgress exScanState exViolPayload).progress ≤ 100) ∧
    platformCardProgress (some exViolCounter) = 200 := by
  have h1 : (updateProgress exScanState exViolPayload).progress = 200 := by
    norm_num [updateProgress, exScanState, exViolPayload, exViolPls,
      exViolCounter, aggSubmitted, aggCollected, aggTotal, jsRound]
  refine ⟨h1, by omega, ?_⟩
  norm_num [platformCardProgress, exViolCounter, jsRound]

/-- `Math.round` of a non-negative quantity is non-negative. -/
theorem jsRound_nonneg {q : ℚ} (h : 0 ≤ q) : 0 ≤ jsRound q := by
  unfold jsRound
  have h2 : ((0 : Int) : ℚ) ≤ q + 1/2 := by push_cast; linarith
  exact Int.le_floor.mpr h2

/-- `Math.round` of a quantity at most 100 is at most 100. -/
theorem jsRound_le_100 {q : ℚ} (h : q ≤ 100) : jsRound q ≤ 100 := by
  unfold jsRound
  have h2 : q + 1/2 < ((101 : Int) : ℚ) := by push_cast; linarith
  have := Int.floor_lt.mpr h2
  omega

/-- A sum of pointwise non-negative counters is non-negative. -/
theorem aggField_nonneg (pls : List (String × PlatformState))
    (f : String × PlatformState → Int) (h : ∀ kv ∈ pls, 0 ≤ f kv) :
    0 ≤ (pls.map f).sum := by
  apply List.sum_nonneg
  intro x hx
  obtain ⟨kv, hkv, rfl⟩ := List.mem_map.mp hx
  exact h kv hkv

/-- A sum of counters pointwise below the totals is below the total sum. -/
theorem aggField_le_total (pls : List (String × PlatformState))
    (f : String × PlatformState → Int) (h : ∀ kv ∈ pls, f kv ≤ kv.2.total) :
    (pls.map f).sum ≤ aggTotal pls :=
  List.sum_le_sum h

/-- C9 amended: the reconcilers are total functions, and the derived
percentages stay in `[0, 100]` provided every platform satisfies the
intended invariant `0 ≤ submitted ≤ total` and `0 ≤ collected ≤ total`
(and the prior overall percent was in range, which matters only for the
zero-total branch that retains it); without the invariant nothing clamps
the values, as the counterexample shows. -/
theorem C9_percent_bounds (s : ScanState) (p : ProgressPayload)
    (hinv : ∀ pls, p.platforms = some pls → ∀ kv ∈ pls,
      0 ≤ kv.2.submitted ∧ kv.2.submitted ≤ kv.2.total ∧
      0 ≤ kv.2.collected ∧ kv.2.collected ≤ kv.2.total)
    (h0 : 0 ≤ s.progress) (h100 : s.progress ≤ 100) :
    (0 ≤ (updateProgress s p).progress ∧ (updateProgress s p).progress ≤ 100) ∧
    (∀ st : PlatformState, 0 ≤ st.submitted → st.submitted ≤ st.total →
      0 ≤ st.collected → st.collected ≤ st.total →
      0 ≤ platformCardProgress (some st) ∧ platformCardProgress (some st) ≤ 100) := by
  constructor
  · cases hpl : p.platforms with
    | none =>
      rw [updateProgress_progress_none s p hpl]
      exact ⟨h0, h100⟩
    | some pls =>
      by_cases ht : 0 < aggTotal pls
      · rw [updateProgress_progress_pos s p pls hpl ht]
        have hinv' := hinv pls hpl
        have hs0 : 0 ≤ aggSubmitted pls :=
          aggField_nonneg pls _ (fun kv hkv => (hinv' kv hkv).1)
        have hsle : aggSubmitted pls ≤ aggTotal pls :=
          aggField_le_total pls _ (fun kv hkv => (hinv' kv hkv).2.1)
        have hc0 : 0 ≤ aggCollected pls :=
          aggField_nonneg pls _ (fun kv hkv => (hinv' kv hkv).2.2.1)
        have hcle : aggCollected pls ≤ aggTotal pls :=
          aggField_le_total pls _ (fun kv hkv => (hinv' kv hkv).2.2.2)
        have htq : (0 : ℚ) < (aggTotal pls : ℚ) := by exact_mod_cast ht
        have hx1 : (aggSubmitted pls : ℚ) / (aggTotal pls : ℚ) ≤ 1 :=
          (div_le_one htq).mpr (by exact_mod_cast hsle)
        have hx0 : 0 ≤ (aggSubmitted pls : ℚ) / (aggTotal pls : ℚ) :=
          div_nonneg (by exact_mod_cast hs0) htq.le
        have hy1 : (aggCollected pls : ℚ) / (aggTotal pls : ℚ) ≤ 1 :=
          (div_le_one htq).mpr (by exact_mod_cast hcle)
        have hy0 : 0 ≤ (aggCollected pls : ℚ) / (aggTotal pls : ℚ) :=
          div_nonneg (by exact_mod_cast hc0) htq.le
        exact ⟨jsRound_nonneg (by linarith), jsRound_le_100 (by linarith)⟩
      · rw [updateProgress_progress_nonpos s p pls hpl ht]
        exact ⟨h0, h100⟩
  · intro st hs0 hsle hc0 hcle
    unfold platformCardProgress
    by_cases h : st.total = 0
    · simp [h]
    · have htpos : 0 < st.total := by omega
      have ht2q : (0 : ℚ) < (st.total : ℚ) * 2 := by
        have : (0 : ℚ) < (st.total : ℚ) := by exact_mod_cast htpos
        linarith
      have hx0 : 0 ≤ ((st.submitted : ℚ) + (st.collected : ℚ)) / ((st.total : ℚ) * 2) := by
        apply div_nonneg _ ht2q.le
        have h1 : (0 : ℚ) ≤ (st.submitted : ℚ) := by exact_mod_cast hs0
        have h2 : (0 : ℚ) ≤ (st.collected : ℚ) := by exact_mod_cast hc0
        linarith
      have hx1 : ((st.submitted : ℚ) + (st.collected : ℚ)) / ((st.total : ℚ) * 2) ≤ 1 := by
        apply (div_le_one ht2q).mpr
        have h1 : (st.submitted : ℚ) ≤ (st.total : ℚ) := by exact_mod_cast hsle
        have h2 : (st.collected : ℚ) ≤ (st.total : ℚ) := by exact_mod_cast hcle
        linarith
      simp only [h, if_false]
      exact ⟨jsRound_nonneg (by linarith), jsRound_le_100 (by linarith)⟩

/-- C9 witness: the amended bounds at a concrete in-invariant state and
payload. -/
theorem C9_percent_bounds_witness :
    (0 ≤ (updateProgress exScanState exPayload1).progress ∧
     (updateProgress exScanState exPayload1).progress ≤ 100) ∧
    (0 ≤ platformCardProgress (some exOkCounter) ∧
     platformCardProgress (some exOkCounter) ≤ 100) := by
  have h := C9_percent_bounds exScanState exPayload1
    (by intro pls hp kv hkv; simp [exPayload1, exPls1] at hp; subst hp;
        simp [exPls1] at hkv; subst hkv; norm_num)
    (by decide) (by decide)
  exact ⟨h.1, h.2 exOkCounter (by norm_num [exOkCounter]) (by norm_num [exOkCounter])
    (by norm_num [exOkCounter]) (by norm_num [exOkCounter])⟩

/- ## C4 -/

/-- C4: `isUnlimited` is computed by `loadDailyUsage` as the explicit
unlimited flag OR `limit == -1`, and the quota gate of `startScan`
(`!isUnlimited && availableTests <= 0`) never blocks when `isUnlimited`
is true — it checks `isUnlimited` before the remaining counters, so even
`availableTests = 0` passes. -/
theorem C4_unlimited_bypass :
    (∀ (prior : DailyUsage) (usage : UsageResp),
      (loadDailyUsage (.ok usage) prior).isUnlimited =
        (usage.isUnlimited.getD false || usage.limit == some (-1))) ∧
    (∀ (du : DailyUsage) (av : Int), du.isUnlimited = true →
      quotaBlocked du av = false) := by
  constructor
  · intro prior usage; rfl
  · intro du av h; simp [quotaBlocked, h]

/-- C4 witness: at the concrete unlimited snapshot with
`remaining = effectiveRemaining = availableTests = 0`, the gate does not
block, `limit = -1` alone makes a loaded snapshot unlimited, and a full
`startScan` run whose refreshed usage is unlimited with zero remaining
reaches the backend `start_scan` call (the scan starts, no warning modal). -/
theorem C4_unlimited_bypass_witness :
    quotaBlocked exUnlimitedDu 0 = false ∧
    availableTests exUnlimitedDu = 0 ∧
    (loadDailyUsage (.ok exUnlimitedResp) initialDailyUsage).isUnlimited =
      (exUnlimitedResp.isUnlimited.getD false || exUnlimitedResp.limit == some (-1)) ∧
    (loadDailyUsage (.ok exUnlimitedResp) initialDailyUsage).isUnlimited = true ∧
    (startScan exEnv exReadyState).1.scan.isScanning = true ∧
    (startScan exEnv exReadyState).1.messages = [] ∧
    (startScan exEnv exReadyState).2 =
      [BackendCmd.checkDailyUsage, BackendCmd.fetchExtensionPrompts "prod-1",
       BackendCmd.getPromptTargetRegions "prod-1",
       BackendCmd.startScanCmd "prod-1" 1 ["chatgpt"] none] := by
  refine ⟨C4_unlimited_bypass.2 exUnlimitedDu 0 rfl, rfl,
          C4_unlimited_bypass.1 initialDailyUsage exUnlimitedResp, by decide,
          ?_, ?_, ?_⟩ <;> decide

/- ## C10 -/

/-- C10: any call to `startScan` while a start is in flight
(`isStarting`) or a scan is active (`isScanning`) returns immediately:
no backend command is invoked and the whole app state is unchanged. -/
theorem C10_reentrancy_guard (env : ScanEnv) (st : AppState)
    (h : st.scan.isStarting = true ∨ st.scan.isScanning = true) :
    startScan env st = (st, []) := by
  unfold startScan
  rcases h with h | h <;> simp [h]

/-- C10 witness: the guard at the concrete busy state. -/
theorem C10_reentrancy_guard_witness :
    startScan exEnv exBusyState = (exBusyState, []) :=
  C10_reentrancy_guard exEnv exBusyState (Or.inl rfl)

/- ## C8 -/

/-- C8 counterexample: after the snapshot is populated (`remaining = 7`), a
subsequent successful usage-check response omitting `remaining` resets it to
the fixed default 0 — not to the prior value 7 as the claim states. -/
theorem C8_counterexample :
    (loadDailyUsage (.ok exFullResp) initialDailyUsage).remaining = 7 ∧
    exPartialResp.remaining = none ∧
    (loadDailyUsage (.ok exPartialResp)
      (loadDailyUsage (.ok exFullResp) initialDailyUsage)).remaining = 0 := by
  refine ⟨by decide, rfl, by decide⟩

/-- C8 amended: on every successful usage check the snapshot is rebuilt from
the response alone — absent fields fall back to fixed defaults every time
(`remaining` to 0, `limit` to 5 for the general usage check; the
product-scoped prompt-count path uses limit default 30), independent of
previously populated values; prior values are retained only when the whole
call fails. -/
theorem C8_fixed_defaults :
    (∀ (usage : UsageResp) (p1 p2 : DailyUsage),
      loadDailyUsage (.ok usage) p1 = loadDailyUsage (.ok usage) p2) ∧
    (∀ (p : DailyUsage) (e : String), loadDailyUsage (.error e) p = p) ∧
    (∀ (usage : UsageResp) (p : DailyUsage), usage.remaining = none →
      (loadDailyUsage (.ok usage) p).remaining = 0) ∧
    (∀ (usage : UsageResp) (p : DailyUsage), usage.limit = none →
      (loadDailyUsage (.ok usage) p).limit = 5) ∧
    (∀ (pd : PromptData) (st : PromptCountState) (q : QuotaResp),
      pd.quota = some q → q.promptsPerDay = 0 →
      (loadProductPromptCount (.ok pd) st).dailyUsage.limit = 30) := by
  refine ⟨fun usage p1 p2 => rfl, fun p e => rfl, ?_, ?_, ?_⟩
  · intro usage p h
    simp [loadDailyUsage, h, jsOrOpt]
  · intro usage p h
    simp [loadDailyUsage, h, jsOrOpt]
  · intro pd st q hq h30
    simp [loadProductPromptCount, hq, h30, jsOrNum]

/-- C8 witness: the amended statement at the concrete responses — the
rebuilt snapshot never depends on the prior one, errors retain, and the
defaults are 0 / 5 / 30 at the concrete partial responses. -/
theorem C8_fixed_defaults_witness :
    loadDailyUsage (.ok exPartialResp)
        (loadDailyUsage (.ok exFullResp) initialDailyUsage) =
      loadDailyUsage (.ok exPartialResp) initialDailyUsage ∧
    loadDailyUsage (.error "network down") exUnlimitedDu = exUnlimitedDu ∧
    (loadDailyUsage (.ok exPartialResp) exUnlimitedDu).remaining = 0 ∧
    (loadDailyUsage (.ok { exPartialResp with limit := none }) exUnlimitedDu).limit = 5 ∧
    (loadProductPromptCount (.ok exPromptDataZeroDay)
      { promptCount := 0, dailyUsage := exUnlimitedDu }).dailyUsage.limit = 30 := by
  refine ⟨C8_fixed_defaults.1 exPartialResp _ initialDailyUsage,
          C8_fixed_defaults.2.1 exUnlimitedDu "network down",
          C8_fixed_defaults.2.2.1 exPartialResp exUnlimitedDu rfl,
          C8_fixed_defaults.2.2.2.1 _ exUnlimitedDu rfl,
          C8_fixed_defaults.2.2.2.2 exPromptDataZeroDay _ _ rfl rfl⟩

/- ## C3 -/

/-- During a burst in which every next signal arrives strictly less than
500 ms after the previous one, the pending timer is repeatedly cancelled and
replaced, never firing: running the tail of the burst from a state with a
freshly armed timer and no refresh performed just re-arms the timer to
500 ms after the last signal. -/
theorem runSignals_burst (ts : List Nat) : ∀ (t : Nat) (rs : List Nat),
    List.Chain' (fun a b => a ≤ b ∧ b < a + 500) (t :: ts) →
    Realtime.runSignals ts { refreshTimer := some (t + 500), refreshes := rs } =
      { refreshTimer := some (ts.getLastD t + 500), refreshes := rs } := by
  induction ts with
  | nil => intro t rs _; rfl
  | cons t' rest ih =>
    intro t rs h
    have hgap : t ≤ t' ∧ t' < t + 500 := (List.chain'_cons.mp h).1
    have htail := (List.chain'_cons.mp h).2
    have hfire : Realtime.fireDue t'
        { refreshTimer := some (t + 500), refreshes := rs } =
        { refreshTimer := some (t + 500), refreshes := rs } := by
      unfold Realtime.fireDue
      simp only []
      rw [if_neg (by omega)]
    show Realtime.runSignals rest (Realtime.debouncedRefresh t'
      (Realtime.fireDue t' { refreshTimer := some (t + 500), refreshes := rs })) = _
    rw [hfire]
    have hdeb : Realtime.debouncedRefresh t'
        { refreshTimer := some (t + 500), refreshes := rs } =
        { refreshTimer := some (t' + 500), refreshes := rs } := rfl
    rw [hdeb, ih t' rs htail, List.getLastD_cons]

/-- C3: the debounce is a single-slot timer — each signal cancels any
pending timer and arms a fresh 500 ms one (first conjunct), so a burst of
signals each arriving less than 500 ms after the previous, starting from the
idle state, performs no quota refresh during the burst and exactly one
refresh — `loadDailyUsage`, modelled as the appended fire time — once time
reaches 500 ms after the last signal (second conjunct). -/
theorem C3_debounce_coalescing :
    (∀ (now : Nat) (s : Realtime.RState),
      Realtime.debouncedRefresh now s =
        { refreshTimer := some (now + 500), refreshes := s.refreshes }) ∧
    (∀ (t0 : Nat) (ts : List Nat),
      List.Chain' (fun a b => a ≤ b ∧ b < a + 500) (t0 :: ts) →
      (Realtime.runSignals (t0 :: ts) Realtime.initial).refreshes = [] ∧
      Realtime.fireDue (ts.getLastD t0 + 500)
          (Realtime.runSignals (t0 :: ts) Realtime.initial) =
        { refreshTimer := none, refreshes := [ts.getLastD t0 + 500] }) := by
  constructor
  · intro now s; rfl
  · intro t0 ts h
    have h0 : Realtime.runSignals (t0 :: ts) Realtime.initial =
        Realtime.runSignals ts { refreshTimer := some (t0 + 500), refreshes := [] } := rfl
    rw [h0, runSignals_burst ts t0 [] h]
    refine ⟨rfl, ?_⟩
    unfold Realtime.fireDue
    simp

/-- C3 witness: three notifications at 0, 100 and 200 ms (gaps of 100 ms)
trigger no refresh during the burst and exactly one refresh at 700 ms =
200 ms + 500 ms. -/
theorem C3_debounce_coalescing_witness :
    (Realtime.runSignals [0, 100, 200] Realtime.initial).refreshes = [] ∧
    Realtime.fireDue 700 (Realtime.runSignals [0, 100, 200] Realtime.initial) =
      { refreshTimer := none, refreshes := [700] } := by
  have h := C3_debounce_coalescing.2 0 [100, 200]
    (by norm_num [List.chain'_cons, List.chain'_singleton])
  exact h
